import Mathlib

/-!
Verification of the OPMIP (Open Proxy Mobile IP) message serializers and
tunnel-service helpers, as a shallow embedding of the C++ sources:
  lib/opmip/pmip/mp_sender.cpp    (pbu_sender, pba_sender)
  lib/opmip/pmip/icmp_sender.cpp  (icmp_ra_sender)
  inc/opmip/sys/ip6_tunnel_service.hpp (parameters, implementation_type)
Bytes are Nat values < 256; multi-byte machine fields are Nat with an
explicit reduction modulo 2^w at each narrowing write.
-/

namespace Opmip

/-- Modelled from the spec: `align_to<8>` (declared in the missing
`opmip/base.hpp`), rounding a length up to the next multiple of 8, per the
spec requirement of an 8-byte aligned overall message length. -/
def align_to8 (n : Nat) : Nat := ((n + 7) / 8) * 8

/-- Modelled from the spec: `opmip::pmip::proxy_binding_info` (declared in the
missing `pmip/mp_sender.hpp`/`pmip/types.hpp`): peer address, mobile-node
identifier (NAI bytes), 16-bit sequence, lifetime in milliseconds, one-byte
handoff indicator, one-byte access-technology type, one-byte status (PBA
only). The address is kept opaque. -/
structure proxy_binding_info where
  address : Nat
  id : List Nat
  sequence : Fin 65536
  lifetime : Nat
  handoff : Fin 256
  link_type : Fin 256
  status : Fin 256

namespace mproto

/-- Modelled from the spec: mobility-option type code for the NAI option. -/
def option_type_nai : Nat := 8

/-- Modelled from the spec: mobility-option type code for the Handoff option. -/
def option_type_handoff : Nat := 15

/-- Modelled from the spec: mobility-option type code for the Access
Technology Type option. -/
def option_type_att : Nat := 17

/-- Modelled from the spec: size of the fixed PBU/PBA message header
(`sizeof(ip::mproto::pbu)` = `sizeof(ip::mproto::pba)`): the 6-byte Mobility
Header followed by 6 bytes of message data (sequence/status, flags,
lifetime). -/
def header_size : Nat := 12

/-- Modelled from the spec: Mobility Header type code of a PBU. -/
def mh_type_pbu : Nat := 5

/-- Modelled from the spec: Mobility Header type code of a PBA. -/
def mh_type_pba : Nat := 6

/-- Modelled from the spec: the fixed part of a Proxy Binding Update
(`ip::mproto::pbu`, declared in the missing `ip/mproto.hpp`): MH type and
length, 16-bit sequence, the A and P flag bits, and the 16-bit lifetime
field (a count of 4-second units on the wire). -/
structure pbu where
  mh_type : Nat
  mh_length : Nat
  sequence : Nat
  flag_a : Bool
  flag_p : Bool
  lifetime : Nat
deriving DecidableEq

/-- The zero-filled PBU header, as produced by `std::fill` of the buffer
followed by placement construction. -/
def pbu.zero : pbu :=
  { mh_type := 0, mh_length := 0, sequence := 0
    flag_a := false, flag_p := false, lifetime := 0 }

/-- Modelled from the spec: the `sequence` setter writes the 16-bit sequence
field. -/
def pbu.set_sequence (m : pbu) (v : Nat) : pbu := { m with sequence := v % 65536 }

/-- Modelled from the spec: the `ack` setter writes the A flag bit. -/
def pbu.set_ack (m : pbu) (b : Bool) : pbu := { m with flag_a := b }

/-- Modelled from the spec: the `proxy_reg` setter writes the P flag bit. -/
def pbu.set_proxy_reg (m : pbu) (b : Bool) : pbu := { m with flag_p := b }

/-- Modelled from the spec: the `lifetime` setter writes the 16-bit wire
lifetime field, so the written value is reduced modulo 2^16. -/
def pbu.set_lifetime (m : pbu) (v : Nat) : pbu := { m with lifetime := v % 65536 }

/-- Modelled from the spec: `init(mh_type, length)` fills the MH type and the
header length information from the final aligned length. -/
def pbu.init (m : pbu) (t len : Nat) : pbu := { m with mh_type := t, mh_length := len }

/-- Modelled from the spec: the fixed part of a Proxy Binding Acknowledgement
(`ip::mproto::pba`): MH type and length, one-byte status, the P flag bit,
16-bit sequence and 16-bit lifetime. -/
structure pba where
  mh_type : Nat
  mh_length : Nat
  status : Nat
  flag_p : Bool
  sequence : Nat
  lifetime : Nat
deriving DecidableEq

/-- The zero-filled PBA header. -/
def pba.zero : pba :=
  { mh_type := 0, mh_length := 0, status := 0
    flag_p := false, sequence := 0, lifetime := 0 }

/-- Modelled from the spec: the `status` setter writes the one-byte status
field. -/
def pba.set_status (m : pba) (v : Nat) : pba := { m with status := v % 256 }

/-- Modelled from the spec: the `proxy_reg` setter writes the P flag bit. -/
def pba.set_proxy_reg (m : pba) (b : Bool) : pba := { m with flag_p := b }

/-- Modelled from the spec: the `sequence` setter writes the 16-bit sequence
field. -/
def pba.set_sequence (m : pba) (v : Nat) : pba := { m with sequence := v % 65536 }

/-- Modelled from the spec: the `lifetime` setter writes the 16-bit wire
lifetime field, so the written value is reduced modulo 2^16. -/
def pba.set_lifetime (m : pba) (v : Nat) : pba := { m with lifetime := v % 65536 }

/-- Modelled from the spec: `init(mh_type, length)` fills the MH type and the
header length information from the final aligned length. -/
def pba.init (m : pba) (t len : Nat) : pba := { m with mh_type := t, mh_length := len }

/-- Modelled from the spec: the NAI mobility option as written by the sender
constructors: TLV with type code 8, an 8-bit length byte covering the subtype
byte plus the identifier, the subtype byte set to 1, then the identifier
bytes copied verbatim. The spec bounds the identifier at 255 bytes. -/
def mk_nai_option (id : List Nat) : List Nat :=
  option_type_nai :: (1 + id.length) % 256 :: 1 :: id

/-- Modelled from the spec: the Handoff mobility option: TLV with type code
15 and a one-byte handoff indicator. -/
def mk_handoff_option (indicator : Fin 256) : List Nat :=
  [option_type_handoff, 1, indicator.val]

/-- Modelled from the spec: the Access Technology Type mobility option: TLV
with type code 17 and a one-byte technology code. -/
def mk_att_option (tech : Fin 256) : List Nat :=
  [option_type_att, 1, tech.val]

end mproto

/-- State of `opmip::pmip::pbu_sender` after construction: the endpoint, the
in-place constructed PBU header, the bytes of the buffer following the fixed
header (options and alignment padding), and the `_length` member. -/
structure pbu_sender where
  endpoint : Nat
  hdr : mproto.pbu
  opts : List Nat
  length : Nat
deriving DecidableEq

/-- `pbu_sender::pbu_sender(const proxy_binding_info&)` from
`lib/opmip/pmip/mp_sender.cpp`: zero-fill the buffer, place the PBU header,
set sequence, the A and P flags and the lifetime in 4-second units
(`pbinfo.lifetime / 4000`), then append the NAI option (subtype 1,
identifier bytes), the Handoff option and the Access Technology Type option,
and align the total length to 8 bytes; the zero-fill leaves every padding
byte zero. -/
def pbu_sender.build (pbinfo : proxy_binding_info) : pbu_sender :=
  let m := mproto.pbu.zero
  let len := mproto.header_size
  let m := m.set_sequence pbinfo.sequence.val
  let m := m.set_ack true
  let m := m.set_proxy_reg true
  let m := m.set_lifetime (pbinfo.lifetime / 4000)
  let naiB := mproto.mk_nai_option pbinfo.id
  let len := len + naiB.length
  let hofB := mproto.mk_handoff_option pbinfo.handoff
  let len := len + hofB.length
  let attB := mproto.mk_att_option pbinfo.link_type
  let len := len + attB.length
  let total := align_to8 len
  { endpoint := pbinfo.address
    hdr := m.init mproto.mh_type_pbu total
    opts := naiB ++ hofB ++ attB ++ List.replicate (total - len) 0
    length := total }

/-- State of `opmip::pmip::pba_sender` after construction. -/
structure pba_sender where
  endpoint : Nat
  hdr : mproto.pba
  opts : List Nat
  length : Nat
deriving DecidableEq

/-- `pba_sender::pba_sender(const proxy_binding_info&)` from
`lib/opmip/pmip/mp_sender.cpp`: zero-fill the buffer, place the PBA header,
set status, the P flag, sequence and the lifetime in 4-second units
(`pbinfo.lifetime / 4000`), then append the NAI, Handoff and Access
Technology Type options and align the total length to 8 bytes. -/
def pba_sender.build (pbinfo : proxy_binding_info) : pba_sender :=
  let m := mproto.pba.zero
  let len := mproto.header_size
  let m := m.set_status pbinfo.status.val
  let m := m.set_proxy_reg true
  let m := m.set_sequence pbinfo.sequence.val
  let m := m.set_lifetime (pbinfo.lifetime / 4000)
  let naiB := mproto.mk_nai_option pbinfo.id
  let len := len + naiB.length
  let hofB := mproto.mk_handoff_option pbinfo.handoff
  let len := len + hofB.length
  let attB := mproto.mk_att_option pbinfo.link_type
  let len := len + attB.length
  let total := align_to8 len
  { endpoint := pbinfo.address
    hdr := m.init mproto.mh_type_pba total
    opts := naiB ++ hofB ++ attB ++ List.replicate (total - len) 0
    length := total }

namespace icmp

/-- Modelled from the spec: size in bytes of the fixed ICMPv6 Router
Advertisement header (`sizeof(ip::icmp::router_advertisement)`). -/
def ra_size : Nat := 16

/-- Modelled from the spec: size in bytes of the Source Link-Layer Address
option for a 48-bit MAC. -/
def sll_size : Nat := 8

/-- Modelled from the spec: size in bytes of the MTU option. -/
def mtu_size : Nat := 8

/-- Modelled from the spec: size in bytes of a Prefix Information option. -/
def prefix_info_size : Nat := 32

/-- Modelled from the spec: the fixed part of an ICMPv6 Router Advertisement
(`ip::icmp::router_advertisement`, declared in the missing `ip/icmp.hpp`):
current hop limit, M and O flags, the 16-bit router lifetime, reachable time
and retransmission timer. -/
structure router_advertisement where
  cur_hop_limit : Nat
  flag_m : Bool
  flag_o : Bool
  lifetime : Nat
  reachable_time : Nat
  retrans_timer : Nat
deriving DecidableEq

/-- The zero-filled RA header produced by `std::fill` plus default
construction. -/
def router_advertisement.zero : router_advertisement :=
  { cur_hop_limit := 0, flag_m := false, flag_o := false
    lifetime := 0, reachable_time := 0, retrans_timer := 0 }

/-- Modelled from the spec: the `lifetime` setter writes the 16-bit router
lifetime field; the C++ argument is a signed int converted to the unsigned
16-bit field, i.e. reduced modulo 2^16. -/
def router_advertisement.set_lifetime (m : router_advertisement) (v : Int) :
    router_advertisement :=
  { m with lifetime := (v % 65536).toNat }

/-- Modelled from the spec: the Prefix Information option
(`ip::opt_prefix_info`, declared in the missing `ip/icmp_options.hpp`):
flags L (on-link) and A (autonomous), 32-bit valid and preferred lifetimes,
and the prefix itself (kept opaque). -/
structure opt_prefix_info where
  flag_l : Bool
  flag_a : Bool
  valid_lifetime : Nat
  prefered_lifetime : Nat
  pfx : Nat
deriving DecidableEq

/-- The zero-filled Prefix Information option. -/
def opt_prefix_info.zero : opt_prefix_info :=
  { flag_l := false, flag_a := false
    valid_lifetime := 0, prefered_lifetime := 0, pfx := 0 }

/-- Modelled from the spec: the `L` setter writes the on-link flag. -/
def opt_prefix_info.set_L (o : opt_prefix_info) (b : Bool) : opt_prefix_info :=
  { o with flag_l := b }

/-- Modelled from the spec: the `A` setter writes the autonomous flag. -/
def opt_prefix_info.set_A (o : opt_prefix_info) (b : Bool) : opt_prefix_info :=
  { o with flag_a := b }

/-- Modelled from the spec: the `valid_lifetime` setter writes the 32-bit
valid-lifetime field. -/
def opt_prefix_info.set_valid_lifetime (o : opt_prefix_info) (v : Nat) :
    opt_prefix_info :=
  { o with valid_lifetime := v % 4294967296 }

/-- Modelled from the spec: the `prefered_lifetime` setter writes the 32-bit
preferred-lifetime field. -/
def opt_prefix_info.set_prefered_lifetime (o : opt_prefix_info) (v : Nat) :
    opt_prefix_info :=
  { o with prefered_lifetime := v % 4294967296 }

/-- Modelled from the spec: the `prefix` setter copies the prefix
(address and length, kept opaque) into the option. -/
def opt_prefix_info.set_pfx (o : opt_prefix_info) (v : Nat) : opt_prefix_info :=
  { o with pfx := v }

/-- The body of the prefix loop of `icmp_ra_sender::icmp_ra_sender`: place a
zero-filled Prefix Information option, set L, A, valid lifetime 7200,
preferred lifetime 1800 and the prefix, and advance the length. -/
def ra_prefix_step (st : List opt_prefix_info × Nat) (pr : Nat) :
    List opt_prefix_info × Nat :=
  let o := ((((opt_prefix_info.zero.set_L true).set_A
      true).set_valid_lifetime 7200).set_prefered_lifetime 1800).set_pfx pr
  (st.1 ++ [o], st.2 + prefix_info_size)

end icmp

/-- State of `opmip::pmip::icmp_ra_sender` after construction: the endpoint
(destination address, port 0), the RA header, the Source Link-Layer Address
option's MAC, the MTU option's value, the Prefix Information options in
buffer order, and the `_length` member. -/
structure icmp_ra_sender where
  endpoint_addr : Nat
  endpoint_port : Nat
  ra : icmp.router_advertisement
  sll : Nat
  mtu_opt : Nat
  prefixes : List icmp.opt_prefix_info
  length : Nat
deriving DecidableEq

/-- `icmp_ra_sender::icmp_ra_sender(mac, mtu, preflist, destination)` from
`lib/opmip/pmip/icmp_sender.cpp`: zero-fill the buffer, place the RA header
and set its router lifetime to `~0` (all-ones, i.e. -1 converted to the
16-bit field), place a Source Link-Layer Address option holding the MAC,
an MTU option holding the link MTU, and, for each prefix of the list in
order, a Prefix Information option with L and A set, valid lifetime 7200 and
preferred lifetime 1800, accumulating the total length. -/
def icmp_ra_sender.build (mac : Nat) (mtu : Nat) (preflist : List Nat)
    (destination : Nat) : icmp_ra_sender :=
  let ra := icmp.router_advertisement.zero.set_lifetime (-1)
  let len := icmp.ra_size
  let len := len + icmp.sll_size
  let len := len + icmp.mtu_size
  let fin := preflist.foldl icmp.ra_prefix_step ([], len)
  { endpoint_addr := destination
    endpoint_port := 0
    ra := ra
    sll := mac
    mtu_opt := mtu
    prefixes := fin.1
    length := fin.2 }

namespace ip6_tunnel_service

/-- `ip6_tunnel_service::if_name_size` from
`inc/opmip/sys/ip6_tunnel_service.hpp`: the size of the tunnel name buffer. -/
def if_name_size : Nat := 16

/-- `parameters::default_protocol` (IPPROTO_IPV6, value 41 in the system
headers). -/
def default_protocol : Nat := 41

/-- `parameters::default_encapsulation_limit` from the header. -/
def default_encapsulation_limit : Nat := 4

/-- `parameters::default_hop_limit` from the header. -/
def default_hop_limit : Nat := 64

/-- `ip6_tunnel_service::parameters` from
`inc/opmip/sys/ip6_tunnel_service.hpp`: the tunnel parameter block. The name
buffer is always exactly `if_name_size` (16) bytes, mirroring
`char _name[if_name_size]`; addresses are kept opaque. -/
structure parameters where
  name : List Nat
  link : Int
  proto : Nat
  encap_limit : Nat
  hop_limit : Nat
  flowinfo : Nat
  flags : Nat
  local_addr : Nat
  remote_addr : Nat
deriving DecidableEq

/-- Modelled from the spec: the `parameters()` constructor (its body lives in
a source file missing from the tree) initializes the block with a cleared
name and the header's default values: protocol `IPPROTO_IPV6`,
encapsulation limit 4, hop limit 64, everything else zero. -/
def parameters.init : parameters :=
  { name := List.replicate if_name_size 0
    link := 0
    proto := default_protocol
    encap_limit := default_encapsulation_limit
    hop_limit := default_hop_limit
    flowinfo := 0
    flags := 0
    local_addr := 0
    remote_addr := 0 }

/-- Standard C `strncpy(dst, src, n)` semantics on a fixed n-byte buffer,
with `src` given as the list of the source string's bytes before its NUL
terminator (so all of them are nonzero): at most n bytes of `src` are
copied, and the remainder of the buffer is NUL-filled only when `src` is
shorter than n; when `src` has n or more bytes, no NUL is written. -/
def strncpy_fixed (src : List Nat) (n : Nat) : List Nat :=
  src.take n ++ List.replicate (n - src.length) 0

/-- `parameters::name(const char* str)` from the header:
`std::strncpy(_name, str, sizeof(_name))` into the 16-byte name buffer. -/
def parameters.set_name (p : parameters) (str : List Nat) : parameters :=
  { p with name := strncpy_fixed str if_name_size }

/-- `parameters::encapsulation_limit(uint8)` setter from the header. -/
def parameters.set_encapsulation_limit (p : parameters) (v : Nat) : parameters :=
  { p with encap_limit := v % 256 }

/-- `parameters::hop_limit(uint8)` setter from the header. -/
def parameters.set_hop_limit (p : parameters) (v : Nat) : parameters :=
  { p with hop_limit := v % 256 }

/-- `parameters::protocol(uint8)` setter from the header. -/
def parameters.set_protocol (p : parameters) (v : Nat) : parameters :=
  { p with proto := v % 256 }

/-- `ip6_tunnel_service::implementation_type` from the header: the tunnel
parameter block, the intrusive list hook (kept opaque), and the
delete-on-close flag. -/
structure implementation_type where
  data : parameters
  node : Nat
  delete_on_close : Bool
deriving DecidableEq

/-- `ip6_tunnel_service::delete_on_close(implementation_type&, bool)` from
the header: saves the previous flag, stores the new value, and returns the
previous flag; modelled as returning the previous flag together with the
updated state. -/
def delete_on_close (impl : implementation_type) (value : Bool) :
    Bool × implementation_type :=
  let prev := impl.delete_on_close
  (prev, { impl with delete_on_close := value })

/-- `ip6_tunnel_service::delete_on_close(const implementation_type&)` from
the header: returns the current flag without modifying the state. -/
def delete_on_close_const (impl : implementation_type) : Bool :=
  impl.delete_on_close

end ip6_tunnel_service

/-- A concrete `proxy_binding_info` whose lifetime of 262144000 ms is a valid
millisecond lifetime yet has `262144000 / 4000 = 65536`, one past the largest
value the 16-bit wire lifetime field can hold. -/
def cex_lifetime_info : proxy_binding_info :=
  { address := 0, id := [], sequence := 0, lifetime := 262144000
    handoff := 0, link_type := 0, status := 0 }

/-- Closed form of the PBU sender state: header fields, option bytes in
order, padding, and total length. -/
lemma pbu_build_eq (p : proxy_binding_info) :
    pbu_sender.build p =
      { endpoint := p.address
        hdr := { mh_type := mproto.mh_type_pbu
                 mh_length := align_to8 (21 + p.id.length)
                 sequence := p.sequence.val % 65536
                 flag_a := true
                 flag_p := true
                 lifetime := (p.lifetime / 4000) % 65536 }
        opts := mproto.mk_nai_option p.id ++
                mproto.mk_handoff_option p.handoff ++
                mproto.mk_att_option p.link_type ++
                List.replicate (align_to8 (21 + p.id.length) - (21 + p.id.length)) 0
        length := align_to8 (21 + p.id.length) } := by
  simp only [pbu_sender.build, mproto.pbu.zero, mproto.pbu.set_sequence,
    mproto.pbu.set_ack, mproto.pbu.set_proxy_reg, mproto.pbu.set_lifetime,
    mproto.pbu.init, mproto.mk_nai_option, mproto.mk_handoff_option,
    mproto.mk_att_option, mproto.header_size, List.length_cons, List.length_nil]
  have h : 12 + (p.id.length + 1 + 1 + 1) + (0 + 1 + 1 + 1) + (0 + 1 + 1 + 1) =
      21 + p.id.length := by omega
  rw [h]

/-- Closed form of the PBA sender state. -/
lemma pba_build_eq (p : proxy_binding_info) :
    pba_sender.build p =
      { endpoint := p.address
        hdr := { mh_type := mproto.mh_type_pba
                 mh_length := align_to8 (21 + p.id.length)
                 status := p.status.val % 256
                 flag_p := true
                 sequence := p.sequence.val % 65536
                 lifetime := (p.lifetime / 4000) % 65536 }
        opts := mproto.mk_nai_option p.id ++
                mproto.mk_handoff_option p.handoff ++
                mproto.mk_att_option p.link_type ++
                List.replicate (align_to8 (21 + p.id.length) - (21 + p.id.length)) 0
        length := align_to8 (21 + p.id.length) } := by
  simp only [pba_sender.build, mproto.pba.zero, mproto.pba.set_status,
    mproto.pba.set_sequence, mproto.pba.set_proxy_reg, mproto.pba.set_lifetime,
    mproto.pba.init, mproto.mk_nai_option, mproto.mk_handoff_option,
    mproto.mk_att_option, mproto.header_size, List.length_cons, List.length_nil]
  have h : 12 + (p.id.length + 1 + 1 + 1) + (0 + 1 + 1 + 1) + (0 + 1 + 1 + 1) =
      21 + p.id.length := by omega
  rw [h]

/-- The prefix loop of the RA sender appends, for each prefix in order, one
Prefix Information option with L and A set, valid lifetime 7200 and
preferred lifetime 1800. -/
lemma ra_fold_prefixes (l : List Nat) (acc : List icmp.opt_prefix_info) (n : Nat) :
    (l.foldl icmp.ra_prefix_step (acc, n)).1 =
      acc ++ l.map (fun pr =>
        { flag_l := true, flag_a := true, valid_lifetime := 7200
          prefered_lifetime := 1800, pfx := pr }) := by
  induction l generalizing acc n with
  | nil => simp
  | cons a t ih =>
      simp only [List.foldl_cons, List.map_cons, icmp.ra_prefix_step,
        icmp.opt_prefix_info.zero, icmp.opt_prefix_info.set_L,
        icmp.opt_prefix_info.set_A, icmp.opt_prefix_info.set_valid_lifetime,
        icmp.opt_prefix_info.set_prefered_lifetime, icmp.opt_prefix_info.set_pfx]
      rw [ih]
      simp

/-- Claim C1 (corrected): the claim as frozen asserts that the wire lifetime
field equals `lifetime / 4000` for every `proxy_binding_info`; at a lifetime
of 262144000 ms the quotient is 65536, which does not fit the 16-bit field,
so the field holds 0 instead. -/
theorem C1_lifetime_div4000_counterexample :
    ¬ ((pbu_sender.build cex_lifetime_info).hdr.lifetime =
         cex_lifetime_info.lifetime / 4000 ∧
       (pba_sender.build cex_lifetime_info).hdr.lifetime =
         cex_lifetime_info.lifetime / 4000) := by
  decide

/-- Claim C1 (amended): for every `proxy_binding_info` with lifetime L
milliseconds, both the PBU serializer and the PBA serializer write the
16-bit wire lifetime field as (L / 4000) reduced modulo 2^16 — i.e. L/4000
truncated to the 16-bit field, equal to L/4000 whenever L < 262144000 — so
the lifetime is carried on the wire as a count of 4-second units while kept
internally in milliseconds. -/
theorem C1_lifetime_wire_quarter_seconds (p : proxy_binding_info) :
    (pbu_sender.build p).hdr.lifetime = (p.lifetime / 4000) % 2 ^ 16 ∧
    (pba_sender.build p).hdr.lifetime = (p.lifetime / 4000) % 2 ^ 16 := by
  rw [pbu_build_eq, pba_build_eq]
  norm_num

/-- Claim C2: for every `proxy_binding_info`, the serialized PBU has the A
(acknowledge requested) flag and the P (proxy registration) flag both set,
and the serialized PBA has the P flag set, independent of the input. -/
theorem C2_flags_always_set (p : proxy_binding_info) :
    (pbu_sender.build p).hdr.flag_a = true ∧
    (pbu_sender.build p).hdr.flag_p = true ∧
    (pba_sender.build p).hdr.flag_p = true := by
  rw [pbu_build_eq, pba_build_eq]
  exact ⟨rfl, rfl, rfl⟩

/-- Claim C3: for every `proxy_binding_info`, the total serialized length of
a PBU and of a PBA equals the fixed header size plus the sizes of the three
options, rounded up to the next multiple of 8, and the options appear in the
fixed order NAI first, then Handoff, then Access Technology Type, in both
message types. -/
theorem C3_length_and_option_order (p : proxy_binding_info) :
    ((pbu_sender.build p).length =
        align_to8 (mproto.header_size + (mproto.mk_nai_option p.id).length +
          (mproto.mk_handoff_option p.handoff).length +
          (mproto.mk_att_option p.link_type).length) ∧
      (pbu_sender.build p).opts.take (mproto.mk_nai_option p.id).length =
        mproto.mk_nai_option p.id ∧
      ((pbu_sender.build p).opts.drop
          (mproto.mk_nai_option p.id).length).take
          (mproto.mk_handoff_option p.handoff).length =
        mproto.mk_handoff_option p.handoff ∧
      (((pbu_sender.build p).opts.drop
          (mproto.mk_nai_option p.id).length).drop
          (mproto.mk_handoff_option p.handoff).length).take
          (mproto.mk_att_option p.link_type).length =
        mproto.mk_att_option p.link_type) ∧
    ((pba_sender.build p).length =
        align_to8 (mproto.header_size + (mproto.mk_nai_option p.id).length +
          (mproto.mk_handoff_option p.handoff).length +
          (mproto.mk_att_option p.link_type).length) ∧
      (pba_sender.build p).opts.take (mproto.mk_nai_option p.id).length =
        mproto.mk_nai_option p.id ∧
      ((pba_sender.build p).opts.drop
          (mproto.mk_nai_option p.id).length).take
          (mproto.mk_handoff_option p.handoff).length =
        mproto.mk_handoff_option p.handoff ∧
      (((pba_sender.build p).opts.drop
          (mproto.mk_nai_option p.id).length).drop
          (mproto.mk_handoff_option p.handoff).length).take
          (mproto.mk_att_option p.link_type).length =
        mproto.mk_att_option p.link_type) := by
  rw [pbu_build_eq, pba_build_eq]
  dsimp only
  simp only [List.append_assoc]
  refine ⟨⟨?_, ?_, ?_, ?_⟩, ?_, ?_, ?_, ?_⟩
  · congr 1
    simp only [mproto.mk_nai_option, mproto.mk_handoff_option,
      mproto.mk_att_option, mproto.header_size, List.length_cons,
      List.length_nil]
    omega
  · exact List.take_left _ _
  · rw [List.drop_left]
    exact List.take_left _ _
  · rw [List.drop_left, List.drop_left]
    exact List.take_left _ _
  · congr 1
    simp only [mproto.mk_nai_option, mproto.mk_handoff_option,
      mproto.mk_att_option, mproto.header_size, List.length_cons,
      List.length_nil]
    omega
  · exact List.take_left _ _
  · rw [List.drop_left]
    exact List.take_left _ _
  · rw [List.drop_left, List.drop_left]
    exact List.take_left _ _

/-- Claim C4: for every `proxy_binding_info`, the NAI option written into a
PBU or PBA has subtype 1 and carries exactly the bytes of the mobile-node
identifier (with the option length byte covering the subtype byte plus the
identifier), the Handoff option carries the one-byte handoff indicator from
the input, and the Access Technology Type option carries the one-byte
link-type code from the input, in both message types. -/
theorem C4_option_payloads (p : proxy_binding_info) :
    (∃ rest, (pbu_sender.build p).opts =
      mproto.option_type_nai :: (1 + p.id.length) % 256 :: 1 ::
        (p.id ++ mproto.option_type_handoff :: 1 :: p.handoff.val ::
          mproto.option_type_att :: 1 :: p.link_type.val :: rest)) ∧
    (∃ rest, (pba_sender.build p).opts =
      mproto.option_type_nai :: (1 + p.id.length) % 256 :: 1 ::
        (p.id ++ mproto.option_type_handoff :: 1 :: p.handoff.val ::
          mproto.option_type_att :: 1 :: p.link_type.val :: rest)) := by
  rw [pbu_build_eq, pba_build_eq]
  refine ⟨⟨List.replicate (align_to8 (21 + p.id.length) - (21 + p.id.length)) 0, ?_⟩,
    ⟨List.replicate (align_to8 (21 + p.id.length) - (21 + p.id.length)) 0, ?_⟩⟩ <;>
    simp [mproto.mk_nai_option, mproto.mk_handoff_option, mproto.mk_att_option]

/-- Claim C9: for every `proxy_binding_info`, every byte of the serialized
PBU or PBA buffer between the end of the last written option (offset
`header_size + |NAI| + 6` from the start of the message) and the
8-byte-aligned total length is zero: the whole buffer is zero-filled before
construction, so the alignment padding is all zeros. Serialization is a
function of the input by construction. -/
theorem C9_padding_is_zero (p : proxy_binding_info) :
    ((pbu_sender.build p).opts.drop ((mproto.mk_nai_option p.id).length + 6) =
      List.replicate ((pbu_sender.build p).length -
        (mproto.header_size + (mproto.mk_nai_option p.id).length + 6)) 0) ∧
    ((pba_sender.build p).opts.drop ((mproto.mk_nai_option p.id).length + 6) =
      List.replicate ((pba_sender.build p).length -
        (mproto.header_size + (mproto.mk_nai_option p.id).length + 6)) 0) := by
  rw [pbu_build_eq, pba_build_eq]
  dsimp only
  constructor <;>
    · rw [List.drop_left' (by
        simp only [mproto.mk_nai_option, mproto.mk_handoff_option,
          mproto.mk_att_option, List.length_append, List.length_cons,
          List.length_nil])]
      congr 1
      simp only [mproto.mk_nai_option, mproto.header_size, List.length_cons]
      omega

/-- Claim C5: for every MAC address, MTU value, prefix list and destination,
the constructed Router Advertisement contains a Source Link-Layer Address
option equal to the given MAC, an MTU option equal to the given link MTU,
and, for each prefix in the list in order, exactly one Prefix Information
option with the L (on-link) and A (autonomous) flags set, valid lifetime
7200 seconds and preferred lifetime 1800 seconds. -/
theorem C5_ra_options (mac mtu : Nat) (preflist : List Nat) (dst : Nat) :
    (icmp_ra_sender.build mac mtu preflist dst).sll = mac ∧
    (icmp_ra_sender.build mac mtu preflist dst).mtu_opt = mtu ∧
    (icmp_ra_sender.build mac mtu preflist dst).prefixes =
      preflist.map (fun pr =>
        { flag_l := true, flag_a := true, valid_lifetime := 7200
          prefered_lifetime := 1800, pfx := pr }) := by
  refine ⟨rfl, rfl, ?_⟩
  show (preflist.foldl icmp.ra_prefix_step ([], _)).1 = _
  rw [ra_fold_prefixes]
  simp

/-- Claim C6: for every input, the router lifetime field of the constructed
Router Advertisement is set to the maximum representable value of the 16-bit
field (the all-ones value 2^16 - 1, since the source assigns `~0`, i.e. -1,
to it). -/
theorem C6_ra_router_lifetime_max (mac mtu : Nat) (preflist : List Nat)
    (dst : Nat) :
    (icmp_ra_sender.build mac mtu preflist dst).ra.lifetime = 2 ^ 16 - 1 := by
  show (icmp.router_advertisement.zero.set_lifetime (-1)).lifetime = 2 ^ 16 - 1
  simp [icmp.router_advertisement.zero, icmp.router_advertisement.set_lifetime]

/-- Claim C7 (code bug): the claim states that the name stored by
`parameters::name` is always NUL-terminated within the 16-byte buffer and so
at most 15 bytes long; but `std::strncpy(_name, str, 16)` does not write any
NUL when the source string has 16 or more non-NUL bytes. At the failing
input of sixteen bytes 65, every byte of the stored 16-byte buffer is
nonzero: no NUL terminator exists in the buffer. -/
theorem C7_name_not_nul_terminated :
    ((ip6_tunnel_service.parameters.init.set_name
        (List.replicate 16 65)).name.all (fun b => b != 0)) = true ∧
    (ip6_tunnel_service.parameters.init.set_name
        (List.replicate 16 65)).name.length =
      ip6_tunnel_service.if_name_size := by
  decide

/-- Claim C8: a newly created tunnel parameter block carries the default
values: encapsulation limit 4, hop limit 64 and protocol IPPROTO_IPV6
(41), matching the header's default constants; the dedicated setters
override them. -/
theorem C8_tunnel_parameter_defaults :
    ip6_tunnel_service.parameters.init.encap_limit =
        ip6_tunnel_service.default_encapsulation_limit ∧
    ip6_tunnel_service.parameters.init.encap_limit = 4 ∧
    ip6_tunnel_service.parameters.init.hop_limit =
        ip6_tunnel_service.default_hop_limit ∧
    ip6_tunnel_service.parameters.init.hop_limit = 64 ∧
    ip6_tunnel_service.parameters.init.proto =
        ip6_tunnel_service.default_protocol ∧
    ip6_tunnel_service.parameters.init.proto = 41 ∧
    (∀ q : ip6_tunnel_service.parameters, ∀ v : Fin 256,
      (q.set_encapsulation_limit v.val).encap_limit = v.val ∧
      (q.set_hop_limit v.val).hop_limit = v.val ∧
      (q.set_protocol v.val).proto = v.val) := by
  refine ⟨rfl, rfl, rfl, rfl, rfl, rfl, fun q v => ⟨?_, ?_, ?_⟩⟩ <;>
    simp [ip6_tunnel_service.parameters.set_encapsulation_limit,
      ip6_tunnel_service.parameters.set_hop_limit,
      ip6_tunnel_service.parameters.set_protocol,
      Nat.mod_eq_of_lt v.isLt]

/-- Claim C10: for every `implementation_type` value and boolean `v`,
`delete_on_close(impl, v)` sets the flag to `v`, returns the value the flag
held before the call, and leaves the `data` and `node` fields unchanged; the
const overload returns the current flag without modifying anything. -/
theorem C10_delete_on_close_frame (impl : ip6_tunnel_service.implementation_type)
    (v : Bool) :
    (ip6_tunnel_service.delete_on_close impl v).2.delete_on_close = v ∧
    (ip6_tunnel_service.delete_on_close impl v).1 = impl.delete_on_close ∧
    (ip6_tunnel_service.delete_on_close impl v).2.data = impl.data ∧
    (ip6_tunnel_service.delete_on_close impl v).2.node = impl.node ∧
    ip6_tunnel_service.delete_on_close_const impl = impl.delete_on_close := by
  exact ⟨rfl, rfl, rfl, rfl, rfl⟩

end Opmip
